import Mathlib

/-!
Verification of the Reproducibility Build Pipeline of
`reproducible-notebook-app` (backend/notebooks).

Shallow embedding: source strings are modelled as `List Char`; the regular
expressions of `static_analyzer.py` and the parsers of `r4r_executor.py` are
embedded as executable scanners specialised to the concrete patterns of the
source; child processes are modelled as an oracle value (`ProcOutcome`)
describing how the invoked process behaved, and `subprocess.run` wrappers map
that outcome to the captured `{returncode, stdout, stderr}` result exactly as
`base.py` / `r_executor.py` do.  Filesystem state relevant to a claim is
explicit record state; `\b` word characters and Python whitespace are modelled
over ASCII.
-/

/-! ## Character classes (Python `re` semantics, ASCII) -/

/-- Python whitespace class `\s` (and `str.strip` characters), ASCII part. -/
def isPySpace (c : Char) : Bool :=
  c = ' ' || c = '\t' || c = '\n' || c = '\r' || c = '\x0b' || c = '\x0c'

/-- Source: `[a-zA-Z]` -/
def isAsciiAlpha (c : Char) : Bool :=
  ('a' ≤ c && c ≤ 'z') || ('A' ≤ c && c ≤ 'Z')

/-- Source: `[0-9]` -/
def isAsciiDigit (c : Char) : Bool := '0' ≤ c && c ≤ '9'

/-- Source: `[0-9a-zA-Z]` -/
def isAsciiAlnum (c : Char) : Bool := isAsciiAlpha c || isAsciiDigit c

/-- Python `\w` (word character) used by `\b`, ASCII part. -/
def isWordChar (c : Char) : Bool := isAsciiAlnum c || c = '_'

/-- The single-quote character (apostrophe). -/
def squote : Char := Char.ofNat 39

/-- A Python string-literal quote: `"` or `'`. -/
def isQuote (c : Char) : Bool := c = '"' || c = squote

/-! ## List-of-char utilities mirroring the Python string operations -/

/-- Source: `str.split("\n")`: split on newline, keeping empty pieces;
`"".split("\n") = [""]`. -/
def splitOnNl : List Char → List (List Char)
  | [] => [[]]
  | c :: cs =>
    match splitOnNl cs with
    | [] => [[]]
    | r :: rs => if c = '\n' then [] :: r :: rs else (c :: r) :: rs

/-- Source: `str.strip()` (ASCII whitespace). -/
def pyStrip (cs : List Char) : List Char :=
  ((cs.dropWhile isPySpace).reverse.dropWhile isPySpace).reverse

/-- Source: `needle in haystack` (Python substring test). -/
def containsSub (w : List Char) : List Char → Bool
  | [] => w.isEmpty
  | c :: cs => w.isPrefixOf (c :: cs) || containsSub w cs

/-- If `w` is a prefix of `cs`, the remainder after it. -/
def dropPrefixL : List Char → List Char → Option (List Char)
  | [], cs => some cs
  | _ :: _, [] => none
  | a :: as, c :: cs => if a = c then dropPrefixL as cs else none

/-- Lexicographic comparison on code points (Python `<=` on `str`). -/
def lexLe : List Char → List Char → Bool
  | [], _ => true
  | _ :: _, [] => false
  | a :: as, b :: bs => if a = b then lexLe as bs else decide (a.val < b.val)

/-- Stable insertion into a `lexLe`-sorted list. -/
def lexInsert (x : List Char) : List (List Char) → List (List Char)
  | [] => [x]
  | y :: ys => if lexLe x y then x :: y :: ys else y :: lexInsert x ys

/-- Python `sorted` on a list of strings. -/
def lexSort : List (List Char) → List (List Char)
  | [] => []
  | x :: xs => lexInsert x (lexSort xs)

/-- Python `sorted(list(set(xs)))`: distinct values in lexicographic order
(`List.dedup` keeps first occurrences; sorting is order-insensitive). -/
def sortedSet (xs : List (List Char)) : List (List Char) :=
  lexSort xs.dedup

theorem length_dropWhileLe {α : Type} (p : α → Bool) (l : List α) :
    (l.dropWhile p).length ≤ l.length := by
  induction l with
  | nil => simp [List.dropWhile]
  | cons a l ih =>
    simp only [List.dropWhile]
    split
    · exact Nat.le_succ_of_le ih
    · simp

/-- Source: `str.split()` worker: `acc` is the current token being read, reversed. -/
def splitWsGo : List Char → List Char → List (List Char)
  | acc, [] => if acc = [] then [] else [acc.reverse]
  | acc, c :: cs =>
    if isPySpace c then
      if acc = [] then splitWsGo [] cs else acc.reverse :: splitWsGo [] cs
    else splitWsGo (c :: acc) cs

/-- Source: `str.split()` : split on whitespace runs, dropping empty tokens. -/
def splitWs (cs : List Char) : List (List Char) := splitWsGo [] cs

/-! ## Pattern matchers for the concrete regexes of `static_analyzer.py` -/

/-- Match `WORD\s*\(` at the head of `cs` (where `WORD` is a literal). -/
def matchWordParenAt (w : List Char) (cs : List Char) : Bool :=
  match dropPrefixL w cs with
  | none => false
  | some rest => decide ((rest.dropWhile isPySpace).head? = some '(')

/-- Source: `re.search` for `WORD\s*\(` without a leading `\b`. -/
def searchNB (w : List Char) : List Char → Bool
  | [] => false
  | c :: cs => matchWordParenAt w (c :: cs) || searchNB w cs

/-- Source: `re.search` for `\bWORD\s*\(`: scan all positions carrying the previous
character for the word-boundary test. -/
def searchWBAux (w : List Char) : Option Char → List Char → Bool
  | _, [] => false
  | prev, c :: cs =>
    ((match prev with
      | none => true
      | some p => !isWordChar p) && matchWordParenAt w (c :: cs))
    || searchWBAux w (some c) cs

def searchWB (w : List Char) (l : List Char) : Bool := searchWBAux w none l

/-! ### Secret patterns

`p1 = sk_live_[0-9a-zA-Z]{20,}` and
`p2 = (?:api_key|access_token|secret)\s*=\s*['"][a-zA-Z0-9_\-]{20,}['"]`.

The repetition sets are disjoint from their follow sets, so Python's greedy
matching never backtracks on these patterns: maximal-munch scanning is exact.
-/

def skLiveMark : List Char := ['s', 'k', '_', 'l', 'i', 'v', 'e', '_']

/-- Try to match `p1` at the head; on success return the rest after the match. -/
def p1HeadAt (cs : List Char) : Option (List Char) :=
  match dropPrefixL skLiveMark cs with
  | none => none
  | some rest =>
    let run := rest.takeWhile isAsciiAlnum
    if run.length ≥ 20 then some (rest.dropWhile isAsciiAlnum) else none

/-- Source: `re.search(p1, line)`. -/
def hasP1 : List Char → Bool
  | [] => false
  | c :: cs => (p1HeadAt (c :: cs)).isSome || hasP1 cs

/-- The character class `[a-zA-Z0-9_\-]` of `p2`'s token run. -/
def isP2RunChar (c : Char) : Bool := isAsciiAlnum c || c = '_' || c = '-'

/-- Try to match `p2` at the head; on success return the rest after the match
(the match includes the closing quote). -/
def p2HeadAt (cs : List Char) : Option (List Char) :=
  let afterKey :=
    match dropPrefixL "api_key".data cs with
    | some r => some r
    | none =>
      match dropPrefixL "access_token".data cs with
      | some r => some r
      | none => dropPrefixL "secret".data cs
  match afterKey with
  | none => none
  | some r1 =>
    match (r1.dropWhile isPySpace) with
    | '=' :: r2 =>
      match r2.dropWhile isPySpace with
      | q :: r3 =>
        if isQuote q then
          let run := r3.takeWhile isP2RunChar
          match r3.dropWhile isP2RunChar with
          | q2 :: r4 => if run.length ≥ 20 && isQuote q2 then some r4 else none
          | [] => none
        else none
      | [] => none
    | _ => none

/-- Source: `re.search(p2, line)`. -/
def hasP2 : List Char → Bool
  | [] => false
  | c :: cs => (p2HeadAt (c :: cs)).isSome || hasP2 cs

/-- The fixed mask token written over a matched credential span. -/
def maskTok : List Char := ['*', '*', '*', 'S', 'E', 'C', 'R', 'E', 'T', '*', '*', '*']

/-- Source: `re.sub(p1, "***SECRET***", s)`: non-overlapping left-to-right replacement.
Fuel-indexed so that the definition is structural (each step consumes at least
one character, so `s.length + 1` fuel always suffices). -/
def maskP1Fuel : Nat → List Char → List Char
  | 0, cs => cs
  | _ + 1, [] => []
  | fuel + 1, c :: cs =>
    match p1HeadAt (c :: cs) with
    | some rest => maskTok ++ maskP1Fuel fuel rest
    | none => c :: maskP1Fuel fuel cs

def maskP1 (cs : List Char) : List Char := maskP1Fuel (cs.length + 1) cs

/-- Source: `re.sub(p2, "***SECRET***", s)`. -/
def maskP2Fuel : Nat → List Char → List Char
  | 0, cs => cs
  | _ + 1, [] => []
  | fuel + 1, c :: cs =>
    match p2HeadAt (c :: cs) with
    | some rest => maskTok ++ maskP2Fuel fuel rest
    | none => c :: maskP2Fuel fuel cs

def maskP2 (cs : List Char) : List Char := maskP2Fuel (cs.length + 1) cs

/-! ### Absolute-path pattern `["'](?:[a-zA-Z]:[\\/]|[\\/])[^"']+["']` -/

def isSlash (c : Char) : Bool := c = '/' || c = '\\'

def notQuote (c : Char) : Bool := !isQuote c

/-- Try to match the quoted-absolute-path pattern at the head of `cs`;
on success return `(matched text, rest)`. -/
def pathMatchAt (cs : List Char) : Option (List Char × List Char) :=
  match cs with
  | q :: r1 =>
    if isQuote q then
      -- root marker: `[a-zA-Z]:[\\/]` или `[\\/]`
      let root : Option (List Char × List Char) :=
        match r1 with
        | a :: b :: c :: r2 =>
          if isAsciiAlpha a && b = ':' && isSlash c then some ([a, b, c], r2)
          else if isSlash a then some ([a], b :: c :: r2)
          else none
        | a :: r2 => if isSlash a then some ([a], r2) else none
        | [] => none
      match root with
      | none => none
      | some (rootChars, r2) =>
        let run := r2.takeWhile notQuote
        if run.length ≥ 1 then
          match r2.dropWhile notQuote with
          | q2 :: r3 => some (q :: rootChars ++ run ++ [q2], r3)
          | [] => none
        else none
    else none
  | [] => none

/-- Source: `re.findall` of the path pattern over one line (fuel-indexed scan). -/
def pathMatchesFuel : Nat → List Char → List (List Char)
  | 0, _ => []
  | _ + 1, [] => []
  | fuel + 1, c :: cs =>
    match pathMatchAt (c :: cs) with
    | some (m, rest) => m :: pathMatchesFuel fuel rest
    | none => pathMatchesFuel fuel cs

def pathMatches (cs : List Char) : List (List Char) :=
  pathMatchesFuel (cs.length + 1) cs

/-! ## `ReproducibilityAnalyzer` (static_analyzer.py) -/

namespace ReproducibilityAnalyzer

/-- One recorded occurrence: Python dict `{line_number, code}` (plus a `match`
key only in absolute-path entries).  `line_number` is an `Int` because the
source computes `line_num - 6`. -/
structure Entry where
  line_number : Int
  code : List Char
  matched : Option (List Char) := none
deriving DecidableEq, Repr

/-- One issue dict of `analyze`. -/
structure Issue where
  category : String
  severity : String
  title : String
  details : String
  fix : String
  lines : List Entry
deriving DecidableEq, Repr

structure AnalysisResult where
  issues : List Issue
  total_issues : Nat
deriving DecidableEq, Repr

/-- The five random-generation patterns `\bNAME\s*\(` of
`_detect_random_with_lines`. -/
def randomWords : List (List Char) :=
  ["sample".data, "rnorm".data, "runif".data, "rbinom".data, "sample_n".data]

/-- Is the (stripped) line a pure comment? (`line.strip().startswith("#")`) -/
def isCommentLine (l : List Char) : Bool :=
  decide ((pyStrip l).head? = some '#')

/-- Source: `_detect_random_with_lines`, with the 1-based enumeration index made
explicit: one entry per matching pattern per non-comment line, recording
`line_num - 6` and the stripped line. -/
def detect_random_with_lines : Nat → List (List Char) → List Entry
  | _, [] => []
  | n, l :: ls =>
    (if isCommentLine l then []
     else (randomWords.filter (fun w => searchWB w l)).map
       (fun _ => ⟨(n : Int) - 6, pyStrip l, none⟩))
    ++ detect_random_with_lines (n + 1) ls

/-- Source: `_find_pattern_lines` for a fixed compiled pattern `p`. -/
def find_pattern_lines (p : List Char → Bool) : Nat → List (List Char) → List Entry
  | _, [] => []
  | n, l :: ls =>
    (if isCommentLine l then []
     else if p l then [⟨(n : Int) - 6, pyStrip l, none⟩] else [])
    ++ find_pattern_lines p (n + 1) ls

/-- Source: `Sys\.(time|Date|timezone)` -/
def timestampPat (l : List Char) : Bool :=
  containsSub "Sys.time".data l || containsSub "Sys.Date".data l ||
    containsSub "Sys.timezone".data l

/-- Source: `download\.file|url\(` -/
def externalPat (l : List Char) : Bool :=
  containsSub "download.file".data l || containsSub "url(".data l

/-- Source: `install\.packages\s*\(` -/
def installPat (l : List Char) : Bool := searchNB "install.packages".data l

/-- Source: `setwd\s*\(` -/
def setwdPat (l : List Char) : Bool := searchNB "setwd".data l

/-- Source: `\b(View|browser|edit|file\.choose)\s*\(` -/
def interactivePat (l : List Char) : Bool :=
  searchWB "View".data l || searchWB "browser".data l ||
    searchWB "edit".data l || searchWB "file.choose".data l

/-- Source: `_find_absolute_paths`: per non-comment line not containing `library(` /
`require(`, one entry per path match that is not URL-like. -/
def find_absolute_paths : Nat → List (List Char) → List Entry
  | _, [] => []
  | n, l :: ls =>
    (if isCommentLine l then []
     else if containsSub "library(".data l || containsSub "require(".data l then []
     else
       ((pathMatches l).filter
          (fun m => !(containsSub "://".data m || containsSub "http".data m))).map
         (fun m => ⟨(n : Int) - 6, pyStrip l, some m⟩))
    ++ find_absolute_paths (n + 1) ls

/-- Entries contributed by one line in `_find_secrets`: the pattern loop
appends one entry per matching pattern, with that pattern's matches masked in
the stripped line. -/
def secretEntriesLine (n : Nat) (l : List Char) : List Entry :=
  if isCommentLine l then []
  else
    (if hasP1 l then [⟨(n : Int) - 6, maskP1 (pyStrip l), none⟩] else [])
    ++ (if hasP2 l then [⟨(n : Int) - 6, maskP2 (pyStrip l), none⟩] else [])

/-- Source: `_find_secrets`. -/
def find_secrets : Nat → List (List Char) → List Entry
  | _, [] => []
  | n, l :: ls => secretEntriesLine n l ++ find_secrets (n + 1) ls

/-- Source: `if cond: issues.append(i)` -/
def optIf (c : Prop) [Decidable c] (i : Issue) : List Issue :=
  if c then [i] else []

/-- Source: `analyze`: the eight category blocks in source order, and
`total_issues = sum(len(i["lines"]) for i in issues)`. -/
def analyze (content : List Char) : AnalysisResult :=
  let lines := splitOnNl content
  let random_issues := detect_random_with_lines 1 lines
  let has_seed := lines.any (containsSub "set.seed".data)
  let timestamp_lines := find_pattern_lines timestampPat 1 lines
  let path_lines := find_absolute_paths 1 lines
  let download_lines := find_pattern_lines externalPat 1 lines
  let install_lines := find_pattern_lines installPat 1 lines
  let setwd_lines := find_pattern_lines setwdPat 1 lines
  let interactive_lines := find_pattern_lines interactivePat 1 lines
  let secret_lines := find_secrets 1 lines
  let issues :=
    optIf (random_issues ≠ [] ∧ has_seed = false)
      ⟨"randomness", "high", "Missing set.seed()",
        "Random functions detected without a seed.",
        "Add set.seed(123) at the start.", random_issues⟩
    ++ optIf (timestamp_lines ≠ [])
      ⟨"timestamp", "medium", "Time-dependent code",
        "Uses current system time/date.",
        "Use fixed dates or pass date as a parameter.", timestamp_lines⟩
    ++ optIf (path_lines ≠ [])
      ⟨"paths", "high", "Absolute file paths",
        "Hard-coded system paths won't work on other machines.",
        "Use relative paths or the 'here' package.", path_lines⟩
    ++ optIf (download_lines ≠ [])
      ⟨"external_data", "medium", "External data sources",
        "Downloads data from URLs which might break.",
        "Include data in the repo or use versioned URLs.", download_lines⟩
    ++ optIf (install_lines ≠ [])
      ⟨"installation", "high", "Hardcoded Package Install",
        "Scripts should not install packages directly.",
        "Remove install.packages(). Rely on Docker/renv.", install_lines⟩
    ++ optIf (setwd_lines ≠ [])
      ⟨"environment", "high", "Changing Working Directory",
        "setwd() breaks reproducibility on other computers.",
        "Use relative paths or project roots.", setwd_lines⟩
    ++ optIf (interactive_lines ≠ [])
      ⟨"interactive", "high", "Interactive Command Detected",
        "Commands like View() stop execution in Docker.",
        "Remove interactive commands.", interactive_lines⟩
    ++ optIf (secret_lines ≠ [])
      ⟨"security", "critical", "Potential API Key / Secret",
        "Hardcoded secrets are a security risk.",
        "Use environment variables: Sys.getenv('MY_KEY').", secret_lines⟩
  ⟨issues, (issues.map (fun i => i.lines.length)).sum⟩

end ReproducibilityAnalyzer

/-! ## Child-process invocation (`BaseExecutor._run_command`,
`RExecutor._run_command` — identical bodies) -/

/-- How the invoked child process behaved (environment oracle):
it ran to completion with an exit code and captured output, it exceeded the
configured timeout (`subprocess.TimeoutExpired`), or invocation raised. -/
inductive ProcOutcome where
  | completed (returncode : Int) (stdout stderr : String)
  | timedOut
  | raised (msg : String)
deriving DecidableEq, Repr

/-- The captured `subprocess.CompletedProcess` fields the callers branch on. -/
structure CmdResult where
  returncode : Int
  stdout : String
  stderr : String
deriving DecidableEq, Repr

namespace BaseExecutor

/-- Source: `_run_command`: a completed process is returned as-is; a timeout is
converted to `CompletedProcess(returncode=124, stdout="", stderr="Timeout")`;
any other exception to `returncode=1, stdout="", stderr=str(e)`. -/
def run_command : ProcOutcome → CmdResult
  | .completed rc out err => ⟨rc, out, err⟩
  | .timedOut => ⟨124, "", "Timeout"⟩
  | .raised msg => ⟨1, "", msg⟩

end BaseExecutor

/-! ## `RExecutor` (r_executor.py) -/

namespace RExecutor

/-- Source: `detect_packages_from_content` character class `[a-zA-Z0-9\.]`. -/
def isPkgChar (c : Char) : Bool := isAsciiAlnum c || c = '.'

/-- Match `(?:library|require)\s*\(\s*["']?([a-zA-Z0-9\.]+)` at the head;
return (capture, rest after the capture).  If a quote is present but no
package character follows it, backtracking into the quote-less branch also
fails (a quote is not a package character), so the whole position fails. -/
def pkgHeadAt (cs : List Char) : Option (List Char × List Char) :=
  let afterKw :=
    match dropPrefixL "library".data cs with
    | some r => some r
    | none => dropPrefixL "require".data cs
  match afterKw with
  | none => none
  | some r1 =>
    match r1.dropWhile isPySpace with
    | '(' :: r2 =>
      let r3 := r2.dropWhile isPySpace
      let r4 := match r3 with
        | q :: rest => if isQuote q then rest else r3
        | [] => r3
      let run := r4.takeWhile isPkgChar
      if run.length ≥ 1 then some (run, r4.dropWhile isPkgChar) else none
    | _ => none

/-- Source: `re.findall` scan for the package pattern (fuel-indexed; each match
consumes at least one character). -/
def pkgScanFuel : Nat → List Char → List (List Char)
  | 0, _ => []
  | _ + 1, [] => []
  | fuel + 1, c :: cs =>
    match pkgHeadAt (c :: cs) with
    | some (cap, rest) => cap :: pkgScanFuel fuel rest
    | none => pkgScanFuel fuel cs

/-- Source: `detect_packages_from_content`: `sorted(list(set(findall(...))))`,
`[]` for empty content. -/
def detect_packages_from_content (c : List Char) : List (List Char) :=
  if c = [] then [] else sortedSet (pkgScanFuel (c.length + 1) c)

/-- Source: `_compute_content_hash`: `""` for empty content, otherwise the SHA-256 hex
digest.  The digest primitive `h` (hashlib) is an external function parameter. -/
def compute_content_hash (h : List Char → List Char) (content : List Char) : List Char :=
  if content = [] then [] else h content

/-- Persistent state of the document's artifact directory
(`storage/notebooks/{id}/reproducibility`) as far as `execute_rmd` reads or
writes it: the `.content_hash` marker file (`none` = missing) and the text of
`notebook.html` / `Dockerfile` / `Makefile` (read back with `read_file`, which
merges "missing" and "empty" into `""`). -/
structure RState where
  marker : Option (List Char)
  html : List Char
  dockerfile : List Char
  makefile : List Char
deriving DecidableEq, Repr

/-- Per-call environment oracle: whether writing the temp `.Rmd` succeeds, how
each child process behaves, the html the render left in the temp directory,
the Dockerfile/Makefile present in the r4r output tree (copied over the final
directory on save), and whether the save block (copytree/writes, which ends by
writing the hash marker) succeeds.  The save block is modelled as atomic:
on failure nothing has been written. -/
structure RWorld where
  writeRmdOk : Bool
  installOutcome : ProcOutcome
  renderOutcome : ProcOutcome
  renderedHtml : List Char
  traceOutcome : ProcOutcome
  r4rDockerfile : Option (List Char)
  r4rMakefile : Option (List Char)
  saveOk : Bool
deriving DecidableEq, Repr

/-- The result dictionary of `execute_rmd` (manifest and logs elided;
exception text in error details elided). -/
structure RmdResult where
  success : Bool
  build_success : Bool
  html : List Char
  dockerfile : List Char
  makefile : List Char
  cached : Bool
  error : Option String
  static_analysis : Option ReproducibilityAnalyzer.AnalysisResult
  detected_packages : Option (List (List Char))
deriving DecidableEq, Repr

/-- Result, post-state, and how many times each child-process stage was
invoked in the call. -/
structure ExecOut where
  res : RmdResult
  state : RState
  renders : Nat
  traces : Nat
  installs : Nat
deriving DecidableEq, Repr

/-- The cache gate of `execute_rmd` step 0: marker file present, its stripped
content equal to the digest, and the stored `notebook.html` non-empty
(a marker file inside the directory implies the directory exists). -/
def cache_hit (st : RState) (ch : List Char) : Bool :=
  match st.marker with
  | some stored => decide (pyStrip stored = ch) && decide (st.html ≠ [])
  | none => false

/-- Source: `execute_rmd(content, notebook_id)`. -/
def execute_rmd (h : List Char → List Char) (st : RState) (content : List Char)
    (w : RWorld) : ExecOut :=
  let ch := compute_content_hash h content
  let sa := ReproducibilityAnalyzer.analyze content
  if cache_hit st ch then
    ⟨⟨true, true, st.html, st.dockerfile, st.makefile, true, none, some sa,
      some (detect_packages_from_content content)⟩, st, 0, 0, 0⟩
  else if w.writeRmdOk = false then
    ⟨⟨false, false, [], [], [], false, some "Failed to save Rmd file", none, none⟩,
      st, 0, 0, 0⟩
  else
    let pkgs := detect_packages_from_content content
    let installs := if pkgs = [] then 0 else 1
    let render := BaseExecutor.run_command w.renderOutcome
    if render.returncode ≠ 0 then
      ⟨⟨false, false, [], [], [], false,
        some ("RMarkdown Render Failed" ++ ":\n" ++ render.stderr ++ "\n" ++ render.stdout),
        some sa, none⟩, st, 1, 0, installs⟩
    else
      let htmlContent := w.renderedHtml
      let trace := BaseExecutor.run_command w.traceOutcome
      if w.saveOk = false then
        ⟨⟨false, false, [], [], [], false, some "Failed to copy result files", none, none⟩,
          st, 1, 1, installs⟩
      else
        let st' : RState := ⟨some ch, htmlContent,
          w.r4rDockerfile.getD st.dockerfile, w.r4rMakefile.getD st.makefile⟩
        ⟨⟨true, decide (trace.returncode = 0), htmlContent, st'.dockerfile, st'.makefile,
          false, none, some sa, some pkgs⟩, st', 1, 1, installs⟩

/-- Source: `create_reproducibility_zip`: which files of the artifact directory end up
in the archive (directory walk modelled as the list of file names; the skip
test is on the bare file name). -/
def create_reproducibility_zip (files : List (List Char)) : List (List Char) :=
  files.filter (fun f =>
    !(".zip".data.isSuffixOf f || decide (f.head? = some '.')))

end RExecutor

/-! ## `StorageManager` (services/storage_manager.py) -/

namespace StorageManager

/-- Source: `create_zip`: excludes zip files, hidden (dot-prefixed) files, and
`semantic_diff.html`. -/
def create_zip (files : List (List Char)) : List (List Char) :=
  files.filter (fun f =>
    !(".zip".data.isSuffixOf f || decide (f.head? = some '.')
      || decide (f = "semantic_diff.html".data)))

end StorageManager

/-! ## `RDiffExecutor` (executors/rdiff_executor.py) -/

namespace RDiffExecutor

/-- Result of the diff stage, plus whether the diff tool was invoked. -/
structure DiffOut where
  success : Bool
  error : Option String
  diff_html : Option (List Char)
  logs : Option String
  invoked : Bool
deriving DecidableEq, Repr

/-- Source: `execute(notebook_id)`: the three precondition checks in source order,
then the tool invocation. `outputExists` is whether the tool left the output
file; `diffContent` what `read_file` returns for it. -/
def execute (localExists containerExists binaryExists : Bool) (o : ProcOutcome)
    (outputExists : Bool) (diffContent : List Char) : DiffOut :=
  if localExists = false then
    ⟨false, some "Local HTML not found. Run notebook first.", none, none, false⟩
  else if containerExists = false then
    ⟨false, some "Container HTML not found. Generate package first.", none, none, false⟩
  else if binaryExists = false then
    ⟨false, some "r-diff binary not found", none, none, false⟩
  else
    let r := BaseExecutor.run_command o
    if r.returncode ≠ 0 ∨ outputExists = false then
      ⟨false, some ("r-diff failed" ++ ":\n" ++ r.stderr), none,
        some (r.stdout ++ r.stderr), true⟩
    else ⟨true, none, some diffContent, some r.stdout, true⟩

end RDiffExecutor

/-! ## `R4RExecutor._collect_r4r_metrics` (executors/r4r_executor.py) -/

namespace R4RExecutor

/-- State of a regular file in the r4r output tree: missing, present but
`open()` raises, or readable with the given text. -/
inductive FileRead where
  | absent
  | unreadable
  | readable (content : List Char)
deriving DecidableEq, Repr

/-- State of `archive.tar`: missing, or present with `tarfile` either
parsing it to `n` members or raising (`none`, caught by the source). -/
inductive TarState where
  | absent
  | present (members : Option Nat)
deriving DecidableEq, Repr

/-- The three files of the r4r output tree that `_collect_r4r_metrics` reads. -/
structure R4RTree where
  installScript : FileRead
  dockerfile : FileRead
  archive : TarState
deriving DecidableEq, Repr

structure Metrics where
  r_packages : List (List Char)
  system_libs : List (List Char)
  files_accessed : Nat
deriving DecidableEq, Repr

/-- Match
`remotes::install_version\s*\(\s*['"]([^'"]+)['"]\s*,\s*['"]([^'"]+)['"]`
at the head; return ((name, version), rest after the match). -/
def ivHeadAt (cs : List Char) : Option ((List Char × List Char) × List Char) :=
  match dropPrefixL "remotes::install_version".data cs with
  | none => none
  | some r1 =>
    match r1.dropWhile isPySpace with
    | '(' :: r2 =>
      match r2.dropWhile isPySpace with
      | q1 :: r3 =>
        if isQuote q1 then
          let name := r3.takeWhile notQuote
          if name.length ≥ 1 then
            match r3.dropWhile notQuote with
            | _ :: r4 =>
              match r4.dropWhile isPySpace with
              | ',' :: r5 =>
                match r5.dropWhile isPySpace with
                | q3 :: r6 =>
                  if isQuote q3 then
                    let ver := r6.takeWhile notQuote
                    if ver.length ≥ 1 then
                      match r6.dropWhile notQuote with
                      | _ :: r7 => some ((name, ver), r7)
                      | [] => none
                    else none
                  else none
                | [] => none
              | _ => none
            | [] => none
          else none
        else none
      | [] => none
    | _ => none

/-- Source: `re.findall` scan for the install-version pattern. -/
def ivScanFuel : Nat → List Char → List (List Char × List Char)
  | 0, _ => []
  | _ + 1, [] => []
  | fuel + 1, c :: cs =>
    match ivHeadAt (c :: cs) with
    | some (pair, rest) => pair :: ivScanFuel fuel rest
    | none => ivScanFuel fuel cs

/-- Package-spec extraction: `sorted([f"{name} ({ver})" ...])`. -/
def parse_r_packages (content : List Char) : List (List Char) :=
  lexSort ((ivScanFuel (content.length + 1) content).map
    (fun p => p.1 ++ " (".data ++ p.2 ++ ")".data))

/-- Source: `content.replace("\\\n", " ")`: flatten line continuations. -/
def replaceBackslashNl : List Char → List Char
  | [] => []
  | '\\' :: '\n' :: rest => ' ' :: replaceBackslashNl rest
  | c :: rest => c :: replaceBackslashNl rest

/-- For `apt-get install.*?-y\s+`: find the first `-y` (not crossing a
newline, since `.` does not match one) that is followed by a whitespace
character; return the rest starting at that whitespace. -/
def findDashY : List Char → Option (List Char)
  | [] => none
  | '\n' :: _ => none
  | '-' :: 'y' :: d :: rest =>
    if isPySpace d then some (d :: rest) else findDashY ('y' :: d :: rest)
  | '-' :: ['y'] => none
  | _ :: rest => findDashY rest

/-- The non-greedy capture `(.*?)(?:&&|;|\n|$)`: text up to (and a rest just
after) the first `&&`, `;`, newline, or end of input. -/
def captureTo : List Char → (List Char × List Char)
  | [] => ([], [])
  | '&' :: '&' :: rest => ([], rest)
  | ';' :: rest => ([], rest)
  | '\n' :: rest => ([], rest)
  | c :: rest =>
    let (cap, r) := captureTo rest
    (c :: cap, r)

/-- Match `apt-get install.*?-y\s+(.*?)(?:&&|;|\n|$)` at the head;
return (capture, rest after the match). -/
def aptHeadAt (cs : List Char) : Option (List Char × List Char) :=
  match dropPrefixL "apt-get install".data cs with
  | none => none
  | some r1 =>
    match findDashY r1 with
    | none => none
    | some r2 => some (captureTo (r2.dropWhile isPySpace))

/-- Source: `re.findall` scan for the apt-get pattern. -/
def aptScanFuel : Nat → List Char → List (List Char)
  | 0, _ => []
  | _ + 1, [] => []
  | fuel + 1, c :: cs =>
    match aptHeadAt (c :: cs) with
    | some (cap, rest) => cap :: aptScanFuel fuel rest
    | none => aptScanFuel fuel cs

/-- Source: `IGNORE_LIST`. -/
def aptIgnoreList : List (List Char) :=
  ["RUN".data, "apt-get".data, "install".data, "update".data, "upgrade".data,
    "&&".data, "\\".data, "sudo".data, "-y".data,
    "--no-install-recommends".data, "rm".data, "-rf".data,
    "/var/lib/apt/lists/*".data]

/-- The per-match token loop: split on whitespace; drop empties, flag-like
tokens and ignore-list words; strip architecture (`:`) and version (`=`)
suffixes. -/
def clean_tokens (cap : List Char) : List (List Char) :=
  ((splitWs cap).map pyStrip).filterMap (fun t =>
    if t = [] ∨ t.head? = some '-' ∨ t ∈ aptIgnoreList then none
    else some ((t.takeWhile (fun c => !decide (c = ':'))).takeWhile
      (fun c => !decide (c = '='))))

/-- System-library extraction from the Dockerfile text:
flatten continuations, scan `apt-get install ... -y` commands, clean the
tokens, and collect into a sorted de-duplicated set. -/
def parse_system_libs (content : List Char) : List (List Char) :=
  let flat := replaceBackslashNl content
  sortedSet (((aptScanFuel (flat.length + 1) flat).map clean_tokens).flatten)

/-- The file-access count: 0 when `archive.tar` is absent or
`tarfile` raises (caught), else the member count. -/
def filesOfArchive : TarState → Nat
  | .absent => 0
  | .present none => 0
  | .present (some n) => n

/-- Source: `_collect_r4r_metrics`: sequential extraction of the three fields.
Only the archive branch is guarded by `try/except` in the source; reading an
existing but unreadable install script or Dockerfile raises out of the
function (`Except.error`). -/
def collect_r4r_metrics (t : R4RTree) : Except Unit Metrics :=
  match t.installScript with
  | .unreadable => .error ()
  | .absent =>
    match t.dockerfile with
    | .unreadable => .error ()
    | .absent => .ok ⟨[], [], filesOfArchive t.archive⟩
    | .readable d => .ok ⟨[], parse_system_libs d, filesOfArchive t.archive⟩
  | .readable c =>
    match t.dockerfile with
    | .unreadable => .error ()
    | .absent => .ok ⟨parse_r_packages c, [], filesOfArchive t.archive⟩
    | .readable d =>
      .ok ⟨parse_r_packages c, parse_system_libs d, filesOfArchive t.archive⟩

end R4RExecutor

/-! ## Helper lemmas -/

namespace ReproducibilityAnalyzer

theorem mem_optIf {c : Prop} [Decidable c] {i j : Issue} (h : j ∈ optIf c i) :
    c ∧ j = i := by
  unfold optIf at h
  split at h <;> simp_all

theorem filter_optIf_neg {c : Prop} [Decidable c] {i : Issue} {p : Issue → Bool}
    (h : p i = false) : (optIf c i).filter p = [] := by
  unfold optIf
  split <;> simp [List.filter, h]

theorem filter_optIf_pos {c : Prop} [Decidable c] {i : Issue} {p : Issue → Bool}
    (h : p i = true) : (optIf c i).filter p = if c then [i] else [] := by
  unfold optIf
  split <;> simp [List.filter, h]

/-- Every entry of `_find_secrets` is, for some input line, the stripped line
with one of the two credential patterns' matches masked — the pattern that
produced the entry. -/
theorem find_secrets_mem {e : Entry} :
    ∀ {n : Nat} {ls : List (List Char)}, e ∈ find_secrets n ls →
      ∃ l ∈ ls, (hasP1 l = true ∧ e.code = maskP1 (pyStrip l))
        ∨ (hasP2 l = true ∧ e.code = maskP2 (pyStrip l)) := by
  intro n ls
  induction ls generalizing n with
  | nil => intro h; simp [find_secrets] at h
  | cons l ls ih =>
    intro h
    rw [find_secrets, List.mem_append] at h
    rcases h with h | h
    · refine ⟨l, List.mem_cons_self l ls, ?_⟩
      unfold secretEntriesLine at h
      split at h
      · simp at h
      · rw [List.mem_append] at h
        rcases h with h | h <;> split at h <;> simp_all
    · obtain ⟨l', hl', hcase⟩ := ih h
      exact ⟨l', List.mem_cons_of_mem l hl', hcase⟩

end ReproducibilityAnalyzer

/-! ## Sanity checks of the embedding on concrete source-level examples -/

/-- Sanity: the Dockerfile line
`RUN apt-get install -y libxml2:amd64 pandoc=3.1.3 curl` yields the system
libraries `{curl, libxml2, pandoc}`. -/
theorem parse_system_libs_example :
    R4RExecutor.parse_system_libs
      "RUN apt-get install -y libxml2:amd64 pandoc=3.1.3 curl".data =
    ["curl".data, "libxml2".data, "pandoc".data] := by decide

/-- Sanity: package detection de-duplicates and sorts, across both call
forms and quoting. -/
theorem detect_packages_example :
    RExecutor.detect_packages_from_content
      "library(ggplot2)\nrequire('dplyr')\nlibrary(ggplot2)".data =
    ["dplyr".data, "ggplot2".data] := by decide

/-- Sanity: install-script parsing formats and sorts `name (version)` pairs. -/
theorem parse_r_packages_example :
    R4RExecutor.parse_r_packages
      "remotes::install_version(\"zoo\", \"1.8\")\nremotes::install_version('abc', '2.0')".data =
    ["abc (2.0)".data, "zoo (1.8)".data] := by decide

/-! ## Claim theorems -/

/-- C4 (code bug witness): the scanner records `line_num - 6`, not the
1-based index of the matched line. For the single-line input
`x <- rnorm(100)` (match on line 1) the recorded `line_number` is `-5`;
the repository's own unit test (`test_issue_line_numbers`) requires it to be
positive, and the claim requires it to be `1`. -/
theorem c4_line_number_offset :
    ReproducibilityAnalyzer.analyze "x <- rnorm(100)".data =
      ⟨[⟨"randomness", "high", "Missing set.seed()",
        "Random functions detected without a seed.",
        "Add set.seed(123) at the start.",
        [⟨-5, "x <- rnorm(100)".data, none⟩]⟩], 1⟩ := by decide

/-- C10: `total_issues` is the sum over the emitted issues of the number of
recorded line occurrences, not the number of issue objects: for a two-random-
line input there is one aggregated issue but `total_issues = 2`. -/
theorem c10_total_is_occurrence_count :
    (∀ content : List Char,
      (ReproducibilityAnalyzer.analyze content).total_issues =
        ((ReproducibilityAnalyzer.analyze content).issues.map
          (fun i => i.lines.length)).sum)
    ∧ (ReproducibilityAnalyzer.analyze "a <- rnorm(1)\nb <- runif(1)".data).issues.length = 1
    ∧ (ReproducibilityAnalyzer.analyze "a <- rnorm(1)\nb <- runif(1)".data).total_issues = 2 := by
  refine ⟨fun content => rfl, by decide, by decide⟩

/-- C6 (counterexample): the timeout sentinel 124 is not reserved — a tool
that itself exits with code 124 (printing nothing and `Timeout` on stderr)
produces a captured result identical to a timed-out run, so a timeout is not
distinguishable from every normal non-zero exit. -/
theorem c6_counterexample :
    BaseExecutor.run_command (.completed 124 "" "Timeout") =
      BaseExecutor.run_command .timedOut := rfl

/-- C6 (amended): a timed-out child process is captured as the fixed result
`(124, "", "Timeout")` while a completed process keeps its own exit code and
output (and an invocation exception maps to exit 1), and a render stage whose
child timed out returns `success=false` with that stderr embedded in its
error; the code 124 is conventional, not reserved, so a tool normally exiting
124 with matching output is indistinguishable. -/
theorem c6_timeout_mapping :
    BaseExecutor.run_command .timedOut = ⟨124, "", "Timeout"⟩
    ∧ (∀ (rc : Int) (out err : String),
        BaseExecutor.run_command (.completed rc out err) = ⟨rc, out, err⟩)
    ∧ (∀ msg : String, BaseExecutor.run_command (.raised msg) = ⟨1, "", msg⟩)
    ∧ (∀ (h : List Char → List Char) (st : RExecutor.RState) (c : List Char)
        (w : RExecutor.RWorld),
        RExecutor.cache_hit st (RExecutor.compute_content_hash h c) = false →
        w.writeRmdOk = true →
        w.renderOutcome = .timedOut →
        (RExecutor.execute_rmd h st c w).res.success = false ∧
        (RExecutor.execute_rmd h st c w).res.error =
          some ("RMarkdown Render Failed" ++ ":\n" ++ "Timeout" ++ "\n" ++ "")) := by
  refine ⟨rfl, fun rc out err => rfl, fun msg => rfl, ?_⟩
  intro h st c w hcache hwrite hrender
  unfold RExecutor.execute_rmd
  simp only [hcache, hwrite, hrender, BaseExecutor.run_command]
  norm_num

/-- C6 witness. -/
theorem c6_witness :
    (RExecutor.execute_rmd (fun _ => "h0".data) ⟨none, [], [], []⟩ "y".data
      ⟨true, .completed 0 "" "", .timedOut, [], .completed 0 "" "", none, none,
        true⟩).res.success = false ∧
    (RExecutor.execute_rmd (fun _ => "h0".data) ⟨none, [], [], []⟩ "y".data
      ⟨true, .completed 0 "" "", .timedOut, [], .completed 0 "" "", none, none,
        true⟩).res.error =
      some ("RMarkdown Render Failed" ++ ":\n" ++ "Timeout" ++ "\n" ++ "") :=
  c6_timeout_mapping.2.2.2 (fun _ => "h0".data) ⟨none, [], [], []⟩ "y".data
    ⟨true, .completed 0 "" "", .timedOut, [], .completed 0 "" "", none, none, true⟩
    (by decide) rfl rfl

/-- C7: the diff stage checks its three preconditions in order with distinct
error messages — missing local render (even when the container render exists),
then missing container render, then missing diff binary — and proceeds to
invoke the diff tool exactly when all three hold. -/
theorem c7_diff_preconditions :
    (∀ (container binary : Bool) (o : ProcOutcome) (oe : Bool) (dc : List Char),
      RDiffExecutor.execute false container binary o oe dc =
        ⟨false, some "Local HTML not found. Run notebook first.", none, none, false⟩)
    ∧ (∀ (binary : Bool) (o : ProcOutcome) (oe : Bool) (dc : List Char),
      RDiffExecutor.execute true false binary o oe dc =
        ⟨false, some "Container HTML not found. Generate package first.", none, none,
          false⟩)
    ∧ (∀ (o : ProcOutcome) (oe : Bool) (dc : List Char),
      RDiffExecutor.execute true true false o oe dc =
        ⟨false, some "r-diff binary not found", none, none, false⟩)
    ∧ (∀ (o : ProcOutcome) (oe : Bool) (dc : List Char),
      (RDiffExecutor.execute true true true o oe dc).invoked = true)
    ∧ ("Local HTML not found. Run notebook first." ≠
        "Container HTML not found. Generate package first.")
    ∧ ("Local HTML not found. Run notebook first." ≠ "r-diff binary not found")
    ∧ ("Container HTML not found. Generate package first." ≠
        "r-diff binary not found") := by
  refine ⟨fun container binary o oe dc => rfl, fun binary o oe dc => rfl,
    fun o oe dc => rfl, fun o oe dc => ?_, by decide, by decide, by decide⟩
  unfold RDiffExecutor.execute
  norm_num
  split <;> rfl

/-- C8 (counterexample): the legacy packager `RExecutor.create_reproducibility_zip`
excludes only zip and hidden files, so on the directory
`{a.html, b.zip, .hidden, semantic_diff.html}` its archive keeps
`semantic_diff.html` — not only `a.html` as the claim states. -/
theorem c8_counterexample :
    RExecutor.create_reproducibility_zip
      ["a.html".data, "b.zip".data, ".hidden".data, "semantic_diff.html".data] =
    ["a.html".data, "semantic_diff.html".data] := by decide

/-- C8 (amended): the packaging rule of the claim — exclude zip-suffixed
files, dot-prefixed files, and the semantic-diff file — holds for
`StorageManager.create_zip`, the packager the pipeline uses (in particular it
archives only `a.html` from the claimed directory); the legacy
`RExecutor.create_reproducibility_zip` applies only the zip and hidden-file
exclusions and keeps the semantic-diff file. -/
theorem c8_zip_packaging :
    (∀ (files : List (List Char)) (f : List Char),
      f ∈ StorageManager.create_zip files ↔
        f ∈ files ∧ ".zip".data.isSuffixOf f = false ∧ f.head? ≠ some '.'
          ∧ f ≠ "semantic_diff.html".data)
    ∧ StorageManager.create_zip
        ["a.html".data, "b.zip".data, ".hidden".data, "semantic_diff.html".data] =
      ["a.html".data]
    ∧ (∀ (files : List (List Char)) (f : List Char),
      f ∈ RExecutor.create_reproducibility_zip files ↔
        f ∈ files ∧ ".zip".data.isSuffixOf f = false ∧ f.head? ≠ some '.') := by
  refine ⟨fun files f => ?_, by decide, fun files f => ?_⟩
  · simp [StorageManager.create_zip, List.mem_filter, not_or, and_assoc]
  · simp [RExecutor.create_reproducibility_zip, List.mem_filter, not_or, and_assoc]

/-- C5 (counterexample): metrics extraction can raise. An install script that
exists but cannot be read (`open()` raising) is not caught by the source —
only the archive branch is guarded — so the extraction aborts instead of
defaulting the field and continuing. -/
theorem c5_counterexample :
    R4RExecutor.collect_r4r_metrics ⟨.unreadable, .absent, .absent⟩ =
      .error () := rfl

/-- C5 (amended): provided neither the install script nor the Dockerfile is
unreadable, extraction returns a fully populated result with per-field
defaults for absent (or unreadable/corrupt archive) inputs, and each field
depends only on its own file, so a failed sub-extraction cannot influence the
other two; an existing-but-unreadable install script or Dockerfile, however,
raises out of the function. -/
theorem c5_metrics_extraction :
    (∀ t : R4RExecutor.R4RTree,
      t.installScript ≠ .unreadable → t.dockerfile ≠ .unreadable →
      ∃ m, R4RExecutor.collect_r4r_metrics t = .ok m
        ∧ (t.installScript = .absent → m.r_packages = [])
        ∧ (t.dockerfile = .absent → m.system_libs = [])
        ∧ ((t.archive = .absent ∨ t.archive = .present none) →
            m.files_accessed = 0))
    ∧ (∀ (t t' : R4RExecutor.R4RTree) (m m' : R4RExecutor.Metrics),
      R4RExecutor.collect_r4r_metrics t = .ok m →
      R4RExecutor.collect_r4r_metrics t' = .ok m' →
      (t.installScript = t'.installScript → m.r_packages = m'.r_packages)
      ∧ (t.dockerfile = t'.dockerfile → m.system_libs = m'.system_libs)
      ∧ (t.archive = t'.archive → m.files_accessed = m'.files_accessed)) := by
  constructor
  · rintro ⟨is, df, ar⟩ his hdf
    cases is <;> cases df <;>
      first
        | exact absurd rfl his
        | exact absurd rfl hdf
        | exact ⟨_, rfl, by simp, by simp, by
            rintro (rfl | rfl) <;> rfl⟩
  · rintro ⟨is, df, ar⟩ ⟨is', df', ar'⟩ m m' hm hm'
    cases is <;> cases df <;> cases is' <;> cases df' <;>
      simp only [R4RExecutor.collect_r4r_metrics] at hm hm'
    all_goals try exact Except.noConfusion hm
    all_goals try exact Except.noConfusion hm'
    all_goals
      injection hm with h
      injection hm' with h'
      subst h
      subst h'
      refine ⟨fun h1 => ?_, fun h2 => ?_, fun h3 => ?_⟩ <;> simp_all

/-- C5 witness: applying the amended theorem to the all-absent tree and to a
pair of trees sharing their install script. -/
theorem c5_witness :
    (∃ m, R4RExecutor.collect_r4r_metrics ⟨.absent, .absent, .absent⟩ = .ok m
      ∧ (R4RExecutor.FileRead.absent = .absent → m.r_packages = [])
      ∧ (R4RExecutor.FileRead.absent = .absent → m.system_libs = [])
      ∧ ((R4RExecutor.TarState.absent = .absent
          ∨ R4RExecutor.TarState.absent = .present none) → m.files_accessed = 0)) :=
  c5_metrics_extraction.1 ⟨.absent, .absent, .absent⟩ (by decide) (by decide)

/-- C1 (counterexample): a failed trace does not protect the marker. With an
empty prior state, a successful render, and a trace child exiting 1, the call
still advances the content-hash marker to the new digest. -/
theorem c1_counterexample :
    (RExecutor.execute_rmd (fun _ => "d0".data) ⟨none, [], [], []⟩ "x".data
      ⟨true, .completed 0 "" "", .completed 0 "" "", "h".data,
        .completed 1 "" "boom", none, none, true⟩).state.marker = some "d0".data
    ∧ (BaseExecutor.run_command (.completed 1 "" "boom")).returncode ≠ 0
    ∧ (RExecutor.execute_rmd (fun _ => "d0".data) ⟨none, [], [], []⟩ "x".data
      ⟨true, .completed 0 "" "", .completed 0 "" "", "h".data,
        .completed 1 "" "boom", none, none, true⟩).traces = 1 := by
  refine ⟨by decide, by decide, by decide⟩

/-- C1 (amended): the marker is advanced to the new digest exactly when the
build passes the cache gate, the temp source write succeeds, the render child
exits 0, and the artifact save succeeds — regardless of the trace child's
outcome; when the render child fails or times out, or the (modelled-atomic)
save fails, the marker is left exactly as it was. -/
theorem c1_marker_advance :
    ∀ (h : List Char → List Char) (st : RExecutor.RState) (c : List Char)
      (w : RExecutor.RWorld),
      ((BaseExecutor.run_command w.renderOutcome).returncode ≠ 0 →
        (RExecutor.execute_rmd h st c w).state.marker = st.marker)
      ∧ (w.saveOk = false → (RExecutor.execute_rmd h st c w).state.marker = st.marker)
      ∧ (RExecutor.cache_hit st (RExecutor.compute_content_hash h c) = false →
          w.writeRmdOk = true →
          (BaseExecutor.run_command w.renderOutcome).returncode = 0 →
          w.saveOk = true →
          (RExecutor.execute_rmd h st c w).state.marker =
            some (RExecutor.compute_content_hash h c)) := by
  intro h st c w
  refine ⟨fun hrender => ?_, fun hsave => ?_, fun hcache hwrite hrender hsave => ?_⟩
  · by_cases hc : RExecutor.cache_hit st (RExecutor.compute_content_hash h c) = true
    · simp [RExecutor.execute_rmd, hc]
    · by_cases hw : w.writeRmdOk = false
      · simp [RExecutor.execute_rmd, hc, hw]
      · simp [RExecutor.execute_rmd, hc, hw, hrender]
  · by_cases hc : RExecutor.cache_hit st (RExecutor.compute_content_hash h c) = true
    · simp [RExecutor.execute_rmd, hc]
    · by_cases hw : w.writeRmdOk = false
      · simp [RExecutor.execute_rmd, hc, hw]
      · by_cases hr : (BaseExecutor.run_command w.renderOutcome).returncode ≠ 0
        · simp [RExecutor.execute_rmd, hc, hw, hr]
        · simp [RExecutor.execute_rmd, hc, hw, hr, hsave]
  · simp [RExecutor.execute_rmd, hcache, hwrite, hrender, hsave]

/-- C1 witness. -/
theorem c1_witness :
    (RExecutor.execute_rmd (fun _ => "d1".data) ⟨none, [], [], []⟩ "z".data
      ⟨true, .completed 0 "" "", .completed 0 "" "", "h".data, .timedOut, none,
        none, true⟩).state.marker =
      some (RExecutor.compute_content_hash (fun _ => "d1".data) "z".data) :=
  (c1_marker_advance (fun _ => "d1".data) ⟨none, [], [], []⟩ "z".data
    ⟨true, .completed 0 "" "", .completed 0 "" "", "h".data, .timedOut, none,
      none, true⟩).2.2 (by decide) rfl (by decide) rfl

/-- C2: if the marker file exists, its stored digest (stripped) equals the
digest of the content, and the stored render HTML is non-empty, the build
returns the existing artifacts with `cached = true` and invokes neither the
render nor the trace child process; and after a first call whose render and
save succeeded producing non-empty HTML, a second call with identical content
is a cache hit, so the two calls together invoke render and trace once each
(the digest hypothesis `pyStrip digest = digest` holds of hex digests). -/
theorem c2_build_cache :
    (∀ (h : List Char → List Char) (st : RExecutor.RState) (c : List Char)
        (w : RExecutor.RWorld) (m : List Char),
      st.marker = some m →
      pyStrip m = RExecutor.compute_content_hash h c →
      st.html ≠ [] →
      (RExecutor.execute_rmd h st c w).res.cached = true
      ∧ (RExecutor.execute_rmd h st c w).res.success = true
      ∧ (RExecutor.execute_rmd h st c w).res.html = st.html
      ∧ (RExecutor.execute_rmd h st c w).state = st
      ∧ (RExecutor.execute_rmd h st c w).renders = 0
      ∧ (RExecutor.execute_rmd h st c w).traces = 0)
    ∧ (∀ (h : List Char → List Char) (st : RExecutor.RState) (c : List Char)
        (w1 w2 : RExecutor.RWorld),
      st.marker = none →
      w1.writeRmdOk = true →
      (BaseExecutor.run_command w1.renderOutcome).returncode = 0 →
      w1.renderedHtml ≠ [] →
      w1.saveOk = true →
      pyStrip (RExecutor.compute_content_hash h c) =
        RExecutor.compute_content_hash h c →
      (RExecutor.execute_rmd h (RExecutor.execute_rmd h st c w1).state c
        w2).res.cached = true
      ∧ (RExecutor.execute_rmd h st c w1).renders
        + (RExecutor.execute_rmd h (RExecutor.execute_rmd h st c w1).state c
            w2).renders = 1
      ∧ (RExecutor.execute_rmd h st c w1).traces
        + (RExecutor.execute_rmd h (RExecutor.execute_rmd h st c w1).state c
            w2).traces = 1) := by
  constructor
  · intro h st c w m hm hstrip hhtml
    have hc : RExecutor.cache_hit st (RExecutor.compute_content_hash h c) = true := by
      unfold RExecutor.cache_hit
      rw [hm]
      simp [hstrip, hhtml]
    simp [RExecutor.execute_rmd, hc]
  · intro h st c w1 w2 hmarker hwrite hrender hhtml hsave htrim
    have hc1 : RExecutor.cache_hit st (RExecutor.compute_content_hash h c) = false := by
      unfold RExecutor.cache_hit
      rw [hmarker]
    have e1s : (RExecutor.execute_rmd h st c w1).state =
        ⟨some (RExecutor.compute_content_hash h c), w1.renderedHtml,
          w1.r4rDockerfile.getD st.dockerfile, w1.r4rMakefile.getD st.makefile⟩ := by
      simp [RExecutor.execute_rmd, hc1, hwrite, hrender, hsave]
    have e1r : (RExecutor.execute_rmd h st c w1).renders = 1 := by
      simp [RExecutor.execute_rmd, hc1, hwrite, hrender, hsave]
    have e1t : (RExecutor.execute_rmd h st c w1).traces = 1 := by
      simp [RExecutor.execute_rmd, hc1, hwrite, hrender, hsave]
    have hc2 : RExecutor.cache_hit (RExecutor.execute_rmd h st c w1).state
        (RExecutor.compute_content_hash h c) = true := by
      rw [e1s]
      unfold RExecutor.cache_hit
      simp [htrim, hhtml]
    obtain ⟨s1, hs1⟩ : ∃ s1, (RExecutor.execute_rmd h st c w1).state = s1 := ⟨_, rfl⟩
    rw [hs1] at hc2
    rw [hs1, e1r, e1t]
    refine ⟨?_, ?_, ?_⟩ <;> simp [RExecutor.execute_rmd, hc2]

/-- C2 witness: a concrete cache hit, and a concrete pair of consecutive
calls invoking render/trace once. -/
theorem c2_witness :
    ((RExecutor.execute_rmd (fun _ => "d2".data) ⟨some "d2".data, "h".data, [], []⟩
        "q".data ⟨true, .completed 0 "" "", .completed 0 "" "", "h".data,
          .completed 0 "" "", none, none, true⟩).res.cached = true
      ∧ (RExecutor.execute_rmd (fun _ => "d2".data)
          ⟨some "d2".data, "h".data, [], []⟩ "q".data
          ⟨true, .completed 0 "" "", .completed 0 "" "", "h".data,
            .completed 0 "" "", none, none, true⟩).res.success = true
      ∧ (RExecutor.execute_rmd (fun _ => "d2".data)
          ⟨some "d2".data, "h".data, [], []⟩ "q".data
          ⟨true, .completed 0 "" "", .completed 0 "" "", "h".data,
            .completed 0 "" "", none, none, true⟩).res.html = "h".data
      ∧ (RExecutor.execute_rmd (fun _ => "d2".data)
          ⟨some "d2".data, "h".data, [], []⟩ "q".data
          ⟨true, .completed 0 "" "", .completed 0 "" "", "h".data,
            .completed 0 "" "", none, none, true⟩).state =
          ⟨some "d2".data, "h".data, [], []⟩
      ∧ (RExecutor.execute_rmd (fun _ => "d2".data)
          ⟨some "d2".data, "h".data, [], []⟩ "q".data
          ⟨true, .completed 0 "" "", .completed 0 "" "", "h".data,
            .completed 0 "" "", none, none, true⟩).renders = 0
      ∧ (RExecutor.execute_rmd (fun _ => "d2".data)
          ⟨some "d2".data, "h".data, [], []⟩ "q".data
          ⟨true, .completed 0 "" "", .completed 0 "" "", "h".data,
            .completed 0 "" "", none, none, true⟩).traces = 0)
    ∧ ((RExecutor.execute_rmd (fun _ => "d2".data)
        (RExecutor.execute_rmd (fun _ => "d2".data) ⟨none, [], [], []⟩ "q".data
          ⟨true, .completed 0 "" "", .completed 0 "" "", "h".data,
            .completed 0 "" "", none, none, true⟩).state "q".data
        ⟨true, .completed 0 "" "", .completed 0 "" "", "h".data,
          .completed 0 "" "", none, none, true⟩).res.cached = true
      ∧ (RExecutor.execute_rmd (fun _ => "d2".data) ⟨none, [], [], []⟩ "q".data
          ⟨true, .completed 0 "" "", .completed 0 "" "", "h".data,
            .completed 0 "" "", none, none, true⟩).renders
        + (RExecutor.execute_rmd (fun _ => "d2".data)
            (RExecutor.execute_rmd (fun _ => "d2".data) ⟨none, [], [], []⟩ "q".data
              ⟨true, .completed 0 "" "", .completed 0 "" "", "h".data,
                .completed 0 "" "", none, none, true⟩).state "q".data
            ⟨true, .completed 0 "" "", .completed 0 "" "", "h".data,
              .completed 0 "" "", none, none, true⟩).renders = 1
      ∧ (RExecutor.execute_rmd (fun _ => "d2".data) ⟨none, [], [], []⟩ "q".data
          ⟨true, .completed 0 "" "", .completed 0 "" "", "h".data,
            .completed 0 "" "", none, none, true⟩).traces
        + (RExecutor.execute_rmd (fun _ => "d2".data)
            (RExecutor.execute_rmd (fun _ => "d2".data) ⟨none, [], [], []⟩ "q".data
              ⟨true, .completed 0 "" "", .completed 0 "" "", "h".data,
                .completed 0 "" "", none, none, true⟩).state "q".data
            ⟨true, .completed 0 "" "", .completed 0 "" "", "h".data,
              .completed 0 "" "", none, none, true⟩).traces = 1) :=
  ⟨c2_build_cache.1 (fun _ => "d2".data) ⟨some "d2".data, "h".data, [], []⟩
      "q".data ⟨true, .completed 0 "" "", .completed 0 "" "", "h".data,
        .completed 0 "" "", none, none, true⟩ "d2".data rfl (by decide) (by decide),
    c2_build_cache.2 (fun _ => "d2".data) ⟨none, [], [], []⟩ "q".data
      ⟨true, .completed 0 "" "", .completed 0 "" "", "h".data,
        .completed 0 "" "", none, none, true⟩
      ⟨true, .completed 0 "" "", .completed 0 "" "", "h".data,
        .completed 0 "" "", none, none, true⟩
      rfl rfl (by decide) (by decide) rfl (by decide)⟩

/-- C3: randomness issues are gated on the absence of a seed call. If some
non-comment line matches a random-generation pattern and no line contains
`set.seed`, the scanner emits exactly one issue of category `randomness`,
severity `high`, whose `lines` aggregate every match; if any line contains
`set.seed`, it emits no randomness issue at all. -/
theorem c3_randomness_seed_gate :
    ∀ content : List Char,
      (ReproducibilityAnalyzer.detect_random_with_lines 1 (splitOnNl content) ≠ [] →
        (splitOnNl content).any (containsSub "set.seed".data) = false →
        ((ReproducibilityAnalyzer.analyze content).issues.filter
            (fun i => decide (i.category = "randomness"))) =
          [⟨"randomness", "high", "Missing set.seed()",
            "Random functions detected without a seed.",
            "Add set.seed(123) at the start.",
            ReproducibilityAnalyzer.detect_random_with_lines 1 (splitOnNl content)⟩])
      ∧ ((splitOnNl content).any (containsSub "set.seed".data) = true →
        ((ReproducibilityAnalyzer.analyze content).issues.filter
            (fun i => decide (i.category = "randomness"))) = []) := by
  intro content
  constructor
  · intro h1 h2
    unfold ReproducibilityAnalyzer.analyze
    simp only [ReproducibilityAnalyzer.optIf]
    simp [List.filter_append, h1, h2, apply_ite (List.filter _)]
  · intro h2
    unfold ReproducibilityAnalyzer.analyze
    simp only [ReproducibilityAnalyzer.optIf]
    simp [List.filter_append, h2, apply_ite (List.filter _)]

/-- C3 witness: a seedless input with one random call yields exactly the one
aggregated randomness issue; adding `set.seed` suppresses it. -/
theorem c3_witness :
    ((ReproducibilityAnalyzer.analyze "x <- rnorm(2)".data).issues.filter
        (fun i => decide (i.category = "randomness"))) =
      [⟨"randomness", "high", "Missing set.seed()",
        "Random functions detected without a seed.",
        "Add set.seed(123) at the start.",
        ReproducibilityAnalyzer.detect_random_with_lines 1
          (splitOnNl "x <- rnorm(2)".data)⟩]
    ∧ ((ReproducibilityAnalyzer.analyze "set.seed(1)\ny <- rnorm(2)".data).issues.filter
        (fun i => decide (i.category = "randomness"))) = [] :=
  ⟨(c3_randomness_seed_gate "x <- rnorm(2)".data).1 (by decide) (by decide),
    (c3_randomness_seed_gate "set.seed(1)\ny <- rnorm(2)".data).2 (by decide)⟩

/-- A line carrying two differently-shaped secrets: a `p2`-shaped
`api_key = "..."` token and a `p1`-shaped `sk_live_...` key. -/
def c9Input : List Char :=
  "api_key = \"AAAAAAAAAAAAAAAAAAAA\" ; k <- \"sk_live_BBBBBBBBBBBBBBBBBBBB\"".data

/-- C9 (counterexample): masking is per-pattern, so a raw secret matched by
one credential pattern appears in the entry recorded for the other pattern.
On `c9Input` the security issue's first recorded snippet still contains the
raw `api_key` token and its second still contains the raw `sk_live_` key. -/
theorem c9_counterexample :
    hasP2 "api_key = \"AAAAAAAAAAAAAAAAAAAA\"".data = true
    ∧ hasP1 "sk_live_BBBBBBBBBBBBBBBBBBBB".data = true
    ∧ ((ReproducibilityAnalyzer.analyze c9Input).issues.headD
        ⟨"", "", "", "", "", []⟩).category = "security"
    ∧ containsSub "AAAAAAAAAAAAAAAAAAAA".data
        ((((ReproducibilityAnalyzer.analyze c9Input).issues.headD
          ⟨"", "", "", "", "", []⟩).lines.getD 0 ⟨0, [], none⟩).code) = true
    ∧ containsSub "sk_live_BBBBBBBBBBBBBBBBBBBB".data
        ((((ReproducibilityAnalyzer.analyze c9Input).issues.headD
          ⟨"", "", "", "", "", []⟩).lines.getD 1 ⟨0, [], none⟩).code) = true := by
  refine ⟨by decide, by decide, by decide, by decide, by decide⟩

/-- Flatten membership in the eight-block issue chain of `analyze`. -/
theorem memChain8 {α : Type} {x : α} {b1 b2 b3 b4 b5 b6 b7 b8 : List α}
    (hx : x ∈ b1 ++ b2 ++ b3 ++ b4 ++ b5 ++ b6 ++ b7 ++ b8) :
    x ∈ b1 ∨ x ∈ b2 ∨ x ∈ b3 ∨ x ∈ b4 ∨ x ∈ b5 ∨ x ∈ b6 ∨ x ∈ b7 ∨ x ∈ b8 := by
  simp only [List.mem_append, or_assoc] at hx
  exact hx

/-- C9 (amended): every security-category entry records the trimmed matched
line with the spans matched by the entry's own credential pattern replaced by
the fixed mask token; a secret matched only by the other pattern may remain
raw in that entry. -/
theorem c9_per_pattern_masking :
    ∀ (content : List Char) (i : ReproducibilityAnalyzer.Issue)
      (e : ReproducibilityAnalyzer.Entry),
      i ∈ (ReproducibilityAnalyzer.analyze content).issues →
      i.category = "security" →
      e ∈ i.lines →
      ∃ l ∈ splitOnNl content,
        (hasP1 l = true ∧ e.code = maskP1 (pyStrip l))
        ∨ (hasP2 l = true ∧ e.code = maskP2 (pyStrip l)) := by
  intro content i e hi hcat he
  unfold ReproducibilityAnalyzer.analyze at hi
  rcases memChain8 hi with h | h | h | h | h | h | h | h <;>
    obtain ⟨_, rfl⟩ := ReproducibilityAnalyzer.mem_optIf h <;>
    first
      | exact ReproducibilityAnalyzer.find_secrets_mem he
      | simp at hcat

/-- C9 witness: the amended theorem applied to `c9Input` and the first
recorded security entry. -/
theorem c9_witness :
    ∃ l ∈ splitOnNl c9Input,
      (hasP1 l = true
        ∧ (((ReproducibilityAnalyzer.analyze c9Input).issues.headD
            ⟨"", "", "", "", "", []⟩).lines.getD 0 ⟨0, [], none⟩).code =
          maskP1 (pyStrip l))
      ∨ (hasP2 l = true
        ∧ (((ReproducibilityAnalyzer.analyze c9Input).issues.headD
            ⟨"", "", "", "", "", []⟩).lines.getD 0 ⟨0, [], none⟩).code =
          maskP2 (pyStrip l)) :=
  c9_per_pattern_masking c9Input
    ((ReproducibilityAnalyzer.analyze c9Input).issues.headD ⟨"", "", "", "", "", []⟩)
    (((ReproducibilityAnalyzer.analyze c9Input).issues.headD
      ⟨"", "", "", "", "", []⟩).lines.getD 0 ⟨0, [], none⟩)
    (by decide) (by decide) (by decide)
